import Mathlib

/-!
Verification of the duxly-connection serverless handlers.

This file is a shallow embedding, in Lean 4, of the five Python source files
of the repository:

* `src/backend/functions/auth.py`      — OAuth initiation (`Auth.handler`)
* `src/backend/functions/callback.py`  — OAuth callback (`Callback.handler`)
* `src/backend/functions/proxy.py`     — storefront proxy relay (`Proxy.handler`)
* `src/backend/functions/gdpr.py`      — GDPR webhooks (`Gdpr.handler`)
* `src/utils/shopify-client.py`        — `ShopifyClient.graphql`

External effects are made explicit:

* the SSM parameter store is a list of name/value entries threaded through
  each operation;
* HMAC-SHA256 (Python's `hmac`/`hashlib` library primitives) is abstracted as
  a digest oracle `String → String → String` (secret, message ↦ encoded
  digest); all canonicalization and comparison logic around it is embedded
  from the source;
* outbound HTTP (`requests`) is an oracle from the request data to a result;
* `json.loads` is an oracle `String → Option Jv` (`none` models a raised
  `JSONDecodeError`);
* `datetime.utcnow().isoformat()` is a `now : String` parameter;
* a Python exception propagating to a handler's `try`/`except` boundary is
  an `Except.error` carrying the exception text.
-/

/-- JSON-like values: the Python objects produced by `json.loads` and consumed
by `json.dumps`.  Response bodies built by the handlers via `json.dumps` are
kept in this structured form. -/
inductive Jv where
  | null : Jv
  | boolean : Bool → Jv
  | str : String → Jv
  | num : Int → Jv
  | arr : List Jv → Jv
  | obj : List (String × Jv) → Jv
deriving Repr, BEq

/-- Byte-wise (code-point-wise) strict comparison of character lists, the
order Python uses on `str`.  (Mathlib's `String.ltb` does not reduce in the
kernel, so we use this executable equivalent.) -/
def charListLt : List Char → List Char → Bool
  | [], [] => false
  | [], _ :: _ => true
  | _ :: _, [] => false
  | a :: as, b :: bs => decide (a < b) || (a == b && charListLt as bs)

/-- Python `str` strict order `a < b`. -/
def pyStrLt (a b : String) : Bool := charListLt a.toList b.toList

/-- Python `str` order `a <= b` (total order: `¬ b < a`). -/
def pyStrLe (a b : String) : Bool := !(pyStrLt b a)

/-- Python `sep.join(strings)`. -/
def joinSep (sep : String) : List String → String
  | [] => ""
  | [x] => x
  | x :: y :: xs => x ++ sep ++ joinSep sep (y :: xs)

/-- Does the second list start with the first? -/
def listPre : List Char → List Char → Bool
  | [], _ => true
  | _ :: _, [] => false
  | a :: as, b :: bs => a == b && listPre as bs

/-- Python `s.startswith(pre)` / key-begins-with test used for the parameter
store namespace filter. -/
def strStarts (s pre : String) : Bool := listPre pre.toList s.toList

/-- Does the list contain the pattern as a contiguous sublist?  Models
Python's `pat in s` on strings. -/
def hasSub (pat : List Char) : List Char → Bool
  | [] => pat.isEmpty
  | c :: rest => listPre pat (c :: rest) || hasSub pat rest

/-- ASCII lower-casing of one character (all header names involved are
ASCII, where Python's `str.lower` agrees with this). -/
def asciiLower (c : Char) : Char :=
  if 'A' ≤ c ∧ c ≤ 'Z' then Char.ofNat (c.toNat + 32) else c

/-- Python `s.lower()` on ASCII strings. -/
def strLower (s : String) : String := String.mk (s.toList.map asciiLower)

/-- First-match lookup in an association list; models `d.get(k)` on a Python
dict held as its (unique-keyed) entry list. -/
def dictGet : List (String × String) → String → Option String
  | [], _ => none
  | (k, v) :: rest, key => if k == key then some v else dictGet rest key

/-- Last-match lookup: the value a Python dict comprehension ends up holding
when the same key is produced twice (later assignments win). -/
def lastLookup (l : List (String × String)) (key : String) : Option String :=
  l.foldl (fun acc kv => if kv.1 == key then some kv.2 else acc) none

/-- Python `d.get(key, dflt)` over a dict built by a comprehension. -/
def pyDictGetD (l : List (String × String)) (key dflt : String) : String :=
  (lastLookup l key).getD dflt

/-- Association-list lookup inside a parsed JSON object. -/
def jvLookup : List (String × Jv) → String → Option Jv
  | [], _ => none
  | (k, v) :: rest, key => if k == key then some v else jvLookup rest key

/-- Python `payload.get(key)`: `none`-returning lookup on a dict, an
`AttributeError` (modelled as `Except.error`) on any other value. -/
def jvGet (payload : Jv) (key : String) : Except String (Option Jv) :=
  match payload with
  | Jv.obj fields => Except.ok (jvLookup fields key)
  | _ => Except.error ("AttributeError: object has no attribute get")

/-- Python `payload.get(key, dflt)`. -/
def jvGetD (payload : Jv) (key : String) (dflt : Jv) : Except String Jv :=
  match jvGet payload key with
  | Except.ok o => Except.ok (o.getD dflt)
  | Except.error e => Except.error e

/-- Python `None`-tolerant conversion used where a looked-up value flows into
an f-string; container rendering abbreviates Python's `repr` (no claim
exercises it). -/
def pyStrOfJv : Jv → String
  | Jv.null => "None"
  | Jv.boolean true => "True"
  | Jv.boolean false => "False"
  | Jv.str s => s
  | Jv.num n => toString n
  | Jv.arr _ => "<list>"
  | Jv.obj _ => "<dict>"

/-- Value of `payload.get(k)` rendered in an f-string (`None` when absent). -/
def pyStrOfOpt (o : Option Jv) : String :=
  match o with
  | none => "None"
  | some v => pyStrOfJv v

/-- Result of `payload.get(k)` as the Jv that `json.dumps` serializes
(`None` becomes JSON `null`). -/
def optJv (o : Option Jv) : Jv := o.getD Jv.null

/-- Python truth value of a JSON value (`if variables:`). -/
def jvTruthy : Jv → Bool
  | Jv.null => false
  | Jv.boolean b => b
  | Jv.str s => !(s == "")
  | Jv.num n => !(n == 0)
  | Jv.arr l => !l.isEmpty
  | Jv.obj l => !l.isEmpty

/-- Python tuple order on `(key, value)` string pairs, as used by
`sorted(params.items())`. -/
def itemLeB (a b : String × String) : Bool :=
  pyStrLt a.1 b.1 || (a.1 == b.1 && pyStrLe a.2 b.2)

/-- The same order as a decidable relation for `List.insertionSort`. -/
def itemLe (a b : String × String) : Prop := itemLeB a b = true

instance : DecidableRel itemLe := fun a b => instDecidableEqBool (itemLeB a b) true

/-- Key-only order on `(key, value)` pairs: the order the specification's
words describe ("sort remaining entries by key"). -/
def keyLeB (a b : String × String) : Bool := pyStrLe a.1 b.1

/-- The key-only order as a decidable relation. -/
def keyLe (a b : String × String) : Prop := keyLeB a b = true

instance : DecidableRel keyLe := fun a b => instDecidableEqBool (keyLeB a b) true

/-- Strict key order, used to show sorted lists with distinct keys are
unique. -/
def keyLt (a b : String × String) : Prop := pyStrLt a.1 b.1 = true

/-- The environment variables the handlers read.  `PARAMETER_STORE_BASE`
models the env var `PARAMETER_STORE_` + `PREFIX` (that suffix cannot appear
in a Lean identifier here); defaults are applied before this record is
built. -/
structure Env where
  SHOPIFY_API_KEY : String
  SHOPIFY_API_SECRET : String
  PARAMETER_STORE_BASE : String
  FRONTEND_URL : String

/-- The SSM parameter store: a list of (name, value) entries. -/
abbrev Store := List (String × String)

/-- `ssm.get_parameter` value lookup (decryption is value-transparent in the
model). -/
def storeGet (store : Store) (name : String) : Option String := dictGet store name

/-- `ssm.put_parameter` with `Overwrite=True`. -/
def storePut (store : Store) (name value : String) : Store :=
  (store.filter (fun kv => kv.1 != name)) ++ [(name, value)]

/-- A structured HTTP response in the Lambda envelope; the `body` holds the
value `json.dumps` would serialize (`Jv.str ""` for a literal empty body). -/
structure LambdaResponse where
  statusCode : Nat
  headers : List (String × String)
  body : Jv
deriving Repr

namespace Auth

/-- ASCII alphanumeric test: the regex class `[a-zA-Z0-9]`. -/
def isAlnumAscii (c : Char) : Bool :=
  ('a' ≤ c && c ≤ 'z') || ('A' ≤ c && c ≤ 'Z') || ('0' ≤ c && c ≤ '9')

/-- The regex class `[a-zA-Z0-9-]`. -/
def isLabelChar (c : Char) : Bool := isAlnumAscii c || c == '-'

/-- The fixed literal tail of the shop regex. -/
def shopSuffixChars : List Char := (".myshopify.com").toList

/-- Executable model of
`re.match(r'^[a-zA-Z0-9][a-zA-Z0-9-]*\.myshopify\.com$', s)` from
`auth.py`.  Since the starred class cannot match `'.'`, a successful match
must consume the maximal alnum/hyphen run; Python's `$` also matches just
before one trailing newline, hence the second alternative. -/
def shop_regex_core : List Char → Bool
  | [] => false
  | c :: rest =>
    isAlnumAscii c &&
    (let r := rest.dropWhile isLabelChar
     r == shopSuffixChars || r == shopSuffixChars ++ ['\n'])

/-- The string-level matcher the handler calls. -/
def shop_regex_match (s : String) : Bool := shop_regex_core s.toList

/-- The inbound event of `auth.py`'s handler: its query parameters and the
request-context fields the code reads (with their `get` defaults already
applied). -/
structure AuthEvent where
  queryStringParameters : Option (List (String × String))
  domainName : String
  stage : String

/-- The fixed scope list requested by `auth.py`. -/
def scopes : String := "read_products,write_products,read_orders"

/-- `auth.py handler`: validates the shop domain and builds the OAuth
redirect.  `state` stands for the value of `secrets.token_hex(16)`. -/
def handler (env : Env) (state : String) (event : AuthEvent) : LambdaResponse :=
  let query_params := event.queryStringParameters.getD []
  match dictGet query_params ("shop") with
  | none =>
    { statusCode := 400, headers := [],
      body := Jv.obj [("error", Jv.str "Missing shop parameter")] }
  | some shop =>
    if shop == "" then
      { statusCode := 400, headers := [],
        body := Jv.obj [("error", Jv.str "Missing shop parameter")] }
    else if !(shop_regex_match shop) then
      { statusCode := 400, headers := [],
        body := Jv.obj [("error", Jv.str "Invalid shop domain")] }
    else
      let app_url := "https://" ++ event.domainName ++ "/" ++ event.stage
      let redirect_uri := app_url ++ "/callback"
      let auth_url := "https://" ++ shop ++ "/admin/oauth/authorize?client_id=" ++
        env.SHOPIFY_API_KEY ++ "&scope=" ++ scopes ++ "&redirect_uri=" ++
        redirect_uri ++ "&state=" ++ state
      { statusCode := 302,
        headers := [("Location", auth_url),
          ("Set-Cookie", "shopify_oauth_state=" ++ state ++
            "; Path=/; Secure; HttpOnly; SameSite=Lax")],
        body := Jv.str "" }

end Auth

namespace Callback

/-- `callback.py verify_hmac`: drop the `hmac`/`signature` carriers, sort the
remaining items as Python tuples, join with `&`, digest, compare
(`hmac.compare_digest` on equal-length hex strings is equality).
`hexDigest` abstracts hex-encoded HMAC-SHA256 of the UTF-8 string. -/
def verify_hmac (hexDigest : String → String → String) (api_secret : String)
    (query_params : List (String × String)) (hmac_value : String) : Bool :=
  let params := query_params.filter
    (fun kv => !(kv.1 == "hmac" || kv.1 == "signature"))
  let sorted_params := joinSep ("&")
    ((List.insertionSort itemLe params).map (fun kv => kv.1 ++ "=" ++ kv.2))
  let computed_hmac := hexDigest api_secret sorted_params
  computed_hmac == hmac_value

/-- `callback.py store_credentials`: three unconditional overwriting puts
(token, scopes, installation timestamp). -/
def store_credentials (env : Env) (now : String) (store : Store)
    (shop access_token scopes : String) : Store :=
  let s1 := storePut store (env.PARAMETER_STORE_BASE ++ "/" ++ shop ++ "/access-token") access_token
  let s2 := storePut s1 (env.PARAMETER_STORE_BASE ++ "/" ++ shop ++ "/scopes") scopes
  storePut s2 (env.PARAMETER_STORE_BASE ++ "/" ++ shop ++ "/installed-at") now

/-- The inbound event of `callback.py`'s handler.  The handler reads only the
query parameters; the headers (which carry the state cookie) are part of the
event but are never consulted by the code. -/
structure CallbackEvent where
  queryStringParameters : Option (List (String × String))
  headers : List (String × String)

/-- `callback.py handler`.  `exchange shop code` abstracts
`exchange_code_for_token` (an outbound `requests.post`): it yields the parsed
token-response dict on success and the raised exception's text on failure. -/
def handler (env : Env) (hexDigest : String → String → String)
    (exchange : String → String → Except String (List (String × String)))
    (now : String) (store : Store) (event : CallbackEvent) :
    Store × LambdaResponse :=
  let params := event.queryStringParameters.getD []
  match dictGet params ("code"), dictGet params ("hmac"), dictGet params ("shop") with
  | some code, some hmac_value, some shop =>
    if code == "" || hmac_value == "" || shop == "" then
      (store,
        { statusCode := 400, headers := [],
          body := Jv.obj [("error", Jv.str "Missing required parameters")] })
    else if !(verify_hmac hexDigest env.SHOPIFY_API_SECRET params hmac_value) then
      (store,
        { statusCode := 403, headers := [],
          body := Jv.obj [("error", Jv.str "Invalid HMAC signature")] })
    else
      match exchange shop code with
      | Except.error msg =>
        (store,
          { statusCode := 500, headers := [("Content-Type", "application/json")],
            body := Jv.obj [("error", Jv.str "Failed to complete installation"),
              ("message", Jv.str msg)] })
      | Except.ok token_data =>
        match dictGet token_data ("access_token"), dictGet token_data ("scope") with
        | some access_token, some scope =>
          let store1 := store_credentials env now store shop access_token scope
          (store1,
            { statusCode := 302,
              headers := [("Location", env.FRONTEND_URL ++ "?shop=" ++ shop ++ "&installed=true")],
              body := Jv.str "" })
        | _, _ =>
          (store,
            { statusCode := 500, headers := [("Content-Type", "application/json")],
              body := Jv.obj [("error", Jv.str "Failed to complete installation"),
                ("message", Jv.str "KeyError")] })
  | _, _, _ =>
    (store,
      { statusCode := 400, headers := [],
        body := Jv.obj [("error", Jv.str "Missing required parameters")] })

end Callback

namespace Proxy

/-- `proxy.py verify_proxy_signature`: drop only the `signature` carrier, sort
the remaining items as Python tuples, join with the empty separator, digest,
compare.  `hexDigest` abstracts hex-encoded HMAC-SHA256. -/
def verify_proxy_signature (hexDigest : String → String → String)
    (api_secret : String) (query_params : List (String × String))
    (signature : String) : Bool :=
  let params := query_params.filter (fun kv => !(kv.1 == "signature"))
  let sorted_params := joinSep ("")
    ((List.insertionSort itemLe params).map (fun kv => kv.1 ++ "=" ++ kv.2))
  let computed_signature := hexDigest api_secret sorted_params
  computed_signature == signature

/-- The parameter-store name `proxy.py get_access_token` reads. -/
def tokenParamName (env : Env) (shop : String) : String :=
  env.PARAMETER_STORE_BASE ++ "/" ++ shop ++ "/access-token"

/-- `proxy.py get_access_token`: a `get_parameter` lookup; an absent
parameter raises `ParameterNotFound` (an `Except.error`). -/
def get_access_token (env : Env) (store : Store) (shop : String) :
    Except String String :=
  match storeGet store (tokenParamName env shop) with
  | none => Except.error ("An error occurred (ParameterNotFound) when calling the GetParameter operation")
  | some v => Except.ok v

/-- One outbound `requests.request` call made by `call_shopify_api`: the
pieces of the request the code assembles.  `jsonBody` is the `json=` payload
(`none` when the Python call passes `None`). -/
structure UpstreamCall where
  method : Jv
  url : String
  accessToken : String
  jsonBody : Option Jv
deriving Repr

/-- The transport's answer to an upstream call: `ok` is `response.ok`,
`text` is `response.text`, `jsonData` is the parsed `response.json()`
(`none` models a JSON decode failure). -/
structure HttpResult where
  ok : Bool
  text : String
  jsonData : Option Jv

/-- `proxy.py call_shopify_api`: build the request, issue it, fail on a
non-success status, otherwise return the parsed body.  The call record is
returned so the theorems can speak about what was sent. -/
def call_shopify_api (http : UpstreamCall → HttpResult) (shop access_token : String)
    (endpoint : Jv) (method : Jv) (body : Option Jv) :
    UpstreamCall × Except String Jv :=
  let url := "https://" ++ shop ++ "/admin/api/2024-01/" ++ pyStrOfJv endpoint
  let call : UpstreamCall := ⟨method, url, access_token, body⟩
  let r := http call
  if !r.ok then (call, Except.error ("Shopify API error: " ++ r.text))
  else
    match r.jsonData with
    | none => (call, Except.error ("JSONDecodeError"))
    | some d => (call, Except.ok d)

/-- The inbound event of `proxy.py`'s handler. -/
structure ProxyEvent where
  queryStringParameters : Option (List (String × String))
  body : Option String

/-- The request body `proxy.py` works with:
`json.loads(event.get('body', '...')) if event.get('body') else` the empty
dict.  `none` models a raised `JSONDecodeError`. -/
def requestBodyOf (parseJson : String → Option Jv) (body : Option String) :
    Option Jv :=
  match body with
  | none => some (Jv.obj [])
  | some b => if b == "" then some (Jv.obj []) else parseJson b

/-- The generic 500 answer of `proxy.py`'s `except` boundary. -/
def proxyError (msg : String) : LambdaResponse :=
  { statusCode := 500, headers := [("Content-Type", "application/json")],
    body := Jv.obj [("error", Jv.str "Internal server error"),
      ("message", Jv.str msg)] }

/-- The tail of `proxy.py handler` once the access token is in hand: extract
`endpoint`/`method` (with their defaults), call the API, wrap the answer.
Returns the response together with the list of upstream calls issued. -/
def callStage (http : UpstreamCall → HttpResult) (shop access_token : String)
    (endpointE methodE : Except String Jv) : LambdaResponse × List UpstreamCall :=
  match endpointE with
  | Except.error m => (proxyError m, [])
  | Except.ok endpoint =>
    match methodE with
    | Except.error m => (proxyError m, [])
    | Except.ok method =>
      match call_shopify_api http shop access_token endpoint method none with
      | (call, Except.ok data) =>
        ({ statusCode := 200,
           headers := [("Content-Type", "application/json"),
             ("Access-Control-Allow-Origin", "*")],
           body := data }, [call])
      | (call, Except.error m) => (proxyError m, [call])

/-- `proxy.py handler`: parameter presence, signature check, token lookup,
body parsing, upstream call.  The second component is the trace of upstream
calls issued during the invocation. -/
def handler (env : Env) (hexDigest : String → String → String)
    (http : UpstreamCall → HttpResult) (parseJson : String → Option Jv)
    (store : Store) (event : ProxyEvent) : LambdaResponse × List UpstreamCall :=
  let params := event.queryStringParameters.getD []
  match dictGet params ("shop"), dictGet params ("signature") with
  | some shop, some signature =>
    if shop == "" || signature == "" then
      ({ statusCode := 400, headers := [("Content-Type", "application/json")],
         body := Jv.obj [("error", Jv.str "Missing required parameters")] }, [])
    else if !(verify_proxy_signature hexDigest env.SHOPIFY_API_SECRET params signature) then
      ({ statusCode := 403, headers := [("Content-Type", "application/json")],
         body := Jv.obj [("error", Jv.str "Invalid signature")] }, [])
    else
      match get_access_token env store shop with
      | Except.error m => (proxyError m, [])
      | Except.ok access_token =>
        match requestBodyOf parseJson event.body with
        | none => (proxyError ("JSONDecodeError"), [])
        | some request_body =>
          callStage http shop access_token
            (jvGetD request_body ("endpoint") (Jv.str "products.json"))
            (jvGetD request_body ("method") (Jv.str "GET"))
  | _, _ =>
    ({ statusCode := 400, headers := [("Content-Type", "application/json")],
       body := Jv.obj [("error", Jv.str "Missing required parameters")] }, [])

end Proxy

namespace Gdpr

/-- `gdpr.py verify_webhook_hmac`: compare the base64 digest of the raw body
against the header value.  `b64Digest` abstracts base64-encoded HMAC-SHA256
of the UTF-8 body. -/
def verify_webhook_hmac (b64Digest : String → String → String)
    (api_secret body hmac_header : String) : Bool :=
  b64Digest api_secret body == hmac_header

/-- The namespace under which `delete_shop_data` enumerates parameters. -/
def nsOf (env : Env) (shop : String) : String :=
  env.PARAMETER_STORE_BASE ++ "/" ++ shop ++ "/"

/-- The parameter names `describe_parameters` enumerates for a shop: those
beginning with the shop's namespace, in store order. -/
def shopParamKeys (env : Env) (store : Store) (shop : String) : List String :=
  (store.filter (fun kv => strStarts kv.1 (nsOf env shop))).map (fun kv => kv.1)

/-- The deletion loop of `delete_shop_data`: delete each enumerated name in
order, accumulating the deleted list; `fail k = some msg` models
`delete_parameter` raising with text `msg`, which aborts the loop. -/
def deleteLoop (fail : String → Option String) :
    List String → Store → List String → Store × Except String (List String)
  | [], store, acc => (store, Except.ok acc.reverse)
  | k :: ks, store, acc =>
    match fail k with
    | some msg => (store, Except.error msg)
    | none => deleteLoop fail ks (store.filter (fun kv => kv.1 != k)) (k :: acc)

/-- The dict `delete_shop_data` returns. -/
structure DeleteResult where
  shop : String
  deleted_parameters : List String
  deleted_at : String
deriving Repr

/-- `gdpr.py delete_shop_data`: enumerate every parameter under the shop's
namespace and delete each one; re-raise any individual failure. -/
def delete_shop_data (env : Env) (fail : String → Option String) (now : String)
    (store : Store) (shop : String) : Store × Except String DeleteResult :=
  let keys := shopParamKeys env store shop
  match deleteLoop fail keys store [] with
  | (st, Except.ok deleted) => (st, Except.ok ⟨shop, deleted, now⟩)
  | (st, Except.error m) => (st, Except.error m)

/-- `gdpr.py handle_customer_data_request`: reads the payload fields and
answers 200; a non-dict payload raises (propagating to the router). -/
def handle_customer_data_request (payload : Jv) (shop_domain : String) :
    Except String LambdaResponse :=
  match jvGet payload ("shop_id") with
  | Except.error e => Except.error e
  | Except.ok shop_id =>
    match jvGet payload ("shop_domain") with
    | Except.error e => Except.error e
    | Except.ok sdp =>
      match jvGet payload ("customer") with
      | Except.error e => Except.error e
      | Except.ok customerO =>
        let customer := customerO.getD (Jv.obj [])
        match jvGet customer ("id") with
        | Except.error e => Except.error e
        | Except.ok customer_id =>
          match jvGet customer ("email") with
          | Except.error e => Except.error e
          | Except.ok _customer_email =>
            Except.ok
              { statusCode := 200, headers := [("Content-Type", "application/json")],
                body := Jv.obj [("shop_id", optJv shop_id),
                  ("shop_domain", optJv sdp),
                  ("customer_id", optJv customer_id),
                  ("data_stored", Jv.arr []),
                  ("message", Jv.str "This app does not store customer-specific data. Only shop-level access tokens are stored for API access.")] }

/-- `gdpr.py handle_customer_redact`: no data to delete, answers 200. -/
def handle_customer_redact (payload : Jv) (shop_domain : String) :
    Except String LambdaResponse :=
  match jvGet payload ("shop_id") with
  | Except.error e => Except.error e
  | Except.ok shop_id =>
    match jvGet payload ("shop_domain") with
    | Except.error e => Except.error e
    | Except.ok sdp =>
      match jvGet payload ("customer") with
      | Except.error e => Except.error e
      | Except.ok customerO =>
        let customer := customerO.getD (Jv.obj [])
        match jvGet customer ("id") with
        | Except.error e => Except.error e
        | Except.ok customer_id =>
          Except.ok
            { statusCode := 200, headers := [("Content-Type", "application/json")],
              body := Jv.obj [("shop_id", optJv shop_id),
                ("shop_domain", optJv sdp),
                ("customer_id", optJv customer_id),
                ("action_taken", Jv.str "none_required"),
                ("message", Jv.str "This app does not store customer-specific data. No deletion required.")] }

/-- `gdpr.py handle_shop_redact`: delete everything under the namespace of
the `shop_domain` taken from the *payload* (not the header), answering 200
with the deletion details or 500 with the failure text.  A non-dict payload
raises before the inner `try`. -/
def handle_shop_redact (env : Env) (fail : String → Option String) (now : String)
    (payload : Jv) (shop_domain : String) (store : Store) :
    Except String (Store × LambdaResponse) :=
  match jvGet payload ("shop_id") with
  | Except.error e => Except.error e
  | Except.ok shop_id =>
    match jvGet payload ("shop_domain") with
    | Except.error e => Except.error e
    | Except.ok sdp =>
      match delete_shop_data env fail now store (pyStrOfOpt sdp) with
      | (st, Except.ok r) =>
        Except.ok (st,
          { statusCode := 200, headers := [("Content-Type", "application/json")],
            body := Jv.obj [("shop_id", optJv shop_id),
              ("shop_domain", optJv sdp),
              ("action_taken", Jv.str "data_deleted"),
              ("details", Jv.obj [("shop", Jv.str r.shop),
                ("deleted_parameters", Jv.arr (r.deleted_parameters.map Jv.str)),
                ("deleted_at", Jv.str r.deleted_at)]),
              ("message", Jv.str "All shop data has been deleted from our systems.")] })
      | (st, Except.error m) =>
        Except.ok (st,
          { statusCode := 500, headers := [("Content-Type", "application/json")],
            body := Jv.obj [("error", Jv.str "Failed to delete shop data"),
              ("message", Jv.str m)] })

/-- The inbound webhook event: headers plus the raw body string. -/
structure WebhookEvent where
  headers : List (String × String)
  body : String

/-- The lower-cased header dict built by the router. -/
def lowerHeaders (event : WebhookEvent) : List (String × String) :=
  event.headers.map (fun kv => (strLower kv.1, kv.2))

/-- The webhook topic the router extracts. -/
def topicOf (event : WebhookEvent) : String :=
  pyDictGetD (lowerHeaders event) ("x-shopify-topic") ("")

/-- The signature header the router extracts. -/
def hmacHeaderOf (event : WebhookEvent) : String :=
  pyDictGetD (lowerHeaders event) ("x-shopify-hmac-sha256") ("")

/-- The shop-domain header the router extracts. -/
def shopDomainOf (event : WebhookEvent) : String :=
  pyDictGetD (lowerHeaders event) ("x-shopify-shop-domain") ("")

/-- `json.loads(body) if body else` the empty dict. -/
def parsedBodyOf (parseJson : String → Option Jv) (body : String) : Option Jv :=
  if body == "" then some (Jv.obj []) else parseJson body

/-- The generic 500 answer of the router's `except` boundary. -/
def gdpr500 : LambdaResponse :=
  { statusCode := 500, headers := [],
    body := Jv.obj [("error", Jv.str "Internal server error")] }

/-- `gdpr.py handler`: signature check, body parse, topic dispatch; any
exception from a topic handler is converted to a generic 500. -/
def handler (env : Env) (b64Digest : String → String → String)
    (parseJson : String → Option Jv) (fail : String → Option String)
    (now : String) (store : Store) (event : WebhookEvent) :
    Store × LambdaResponse :=
  let webhook_topic := topicOf event
  let hmac_header := hmacHeaderOf event
  let shop_domain := shopDomainOf event
  let body := event.body
  if !(verify_webhook_hmac b64Digest env.SHOPIFY_API_SECRET body hmac_header) then
    (store,
      { statusCode := 401, headers := [],
        body := Jv.obj [("error", Jv.str "Invalid signature")] })
  else
    match parsedBodyOf parseJson body with
    | none => (store, gdpr500)
    | some payload =>
      if webhook_topic == "customers/data_request" then
        match handle_customer_data_request payload shop_domain with
        | Except.ok r => (store, r)
        | Except.error _ => (store, gdpr500)
      else if webhook_topic == "customers/redact" then
        match handle_customer_redact payload shop_domain with
        | Except.ok r => (store, r)
        | Except.error _ => (store, gdpr500)
      else if webhook_topic == "shop/redact" then
        match handle_shop_redact env fail now payload shop_domain store with
        | Except.ok (st, r) => (st, r)
        | Except.error _ => (store, gdpr500)
      else
        (store,
          { statusCode := 400, headers := [],
            body := Jv.obj [("error", Jv.str ("Unknown topic: " ++ webhook_topic))] })

end Gdpr

namespace ShopifyClient

/-- The mutable state of a `ShopifyClient` instance (`shopify-client.py`):
constructor arguments plus the per-instance token memo. -/
structure ClientState where
  shop : String
  api_version : String
  accessTokenCache : Option String
deriving Repr

/-- `shopify-client.py ShopifyClient.get_access_token`: answer from the memo
if set, otherwise read the (hard-coded prefix) parameter, memoizing it; an
absent parameter raises `ParameterNotFound`. -/
def get_access_token (store : Store) (st : ClientState) :
    Except String (String × ClientState) :=
  match st.accessTokenCache with
  | some t => Except.ok (t, st)
  | none =>
    match storeGet store ("/shopify/clients/" ++ st.shop ++ "/access-token") with
    | none => Except.error ("An error occurred (ParameterNotFound) when calling the GetParameter operation")
    | some v => Except.ok (v, { st with accessTokenCache := some v })

/-- The outbound GraphQL POST assembled by `graphql`. -/
structure GqlRequest where
  url : String
  token : String
  payload : Jv
deriving Repr

/-- The transport's answer: HTTP status plus parsed `response.json()`
(`none` models a JSON decode failure). -/
structure GqlResult where
  status : Nat
  jsonData : Option Jv

/-- The JSON payload `graphql` posts: `variables` is attached only when
truthy, as in the source. -/
def gqlPayload (query : String) (vars : Option Jv) : Jv :=
  Jv.obj ([("query", Jv.str query)] ++
    (match vars with
     | some v => if jvTruthy v then [("variables", v)] else []
     | none => []))

/-- The request `graphql` issues for a given state and query. -/
def gqlRequestOf (st : ClientState) (token query : String) (vars : Option Jv) :
    GqlRequest :=
  ⟨"https://" ++ st.shop ++ "/admin/api/" ++ st.api_version ++ "/graphql.json",
   token, gqlPayload query vars⟩

/-- Python `x == 'errors'` for a JSON value (list membership test). -/
def jvIsStrErrors : Jv → Bool
  | Jv.str s => s == "errors"
  | _ => false

/-- `shopify-client.py ShopifyClient.graphql`: token, POST,
`raise_for_status`, then the payload-level error check: `'errors' in data`
raises even on a transport-level success, otherwise `data.get('data', {})`
is returned.  Non-dict bodies follow Python's `in`/`get` behaviour
(`TypeError` / `AttributeError`, both surfacing as errors). -/
def graphql (http : GqlRequest → GqlResult) (store : Store) (st : ClientState)
    (query : String) (vars : Option Jv) :
    Except String (Jv × ClientState) :=
  match get_access_token store st with
  | Except.error e => Except.error e
  | Except.ok (token, st1) =>
    let r := http (gqlRequestOf st1 token query vars)
    if 400 ≤ r.status then
      Except.error ("HTTPError: status " ++ toString r.status)
    else
      match r.jsonData with
      | none => Except.error ("JSONDecodeError")
      | some data =>
        match data with
        | Jv.obj fields =>
          match jvLookup fields ("errors") with
          | some ev => Except.error ("GraphQL errors: " ++ pyStrOfJv ev)
          | none => Except.ok ((jvLookup fields ("data")).getD (Jv.obj []), st1)
        | Jv.str sv =>
          if hasSub (("errors").toList) sv.toList then
            Except.error ("TypeError: string indices must be integers")
          else Except.error ("AttributeError: object has no attribute get")
        | Jv.arr xs =>
          if xs.any jvIsStrErrors then
            Except.error ("TypeError: list indices must be integers")
          else Except.error ("AttributeError: object has no attribute get")
        | _ => Except.error ("TypeError: argument is not iterable")

end ShopifyClient

/-! ## Specification-side definitions

These follow the words of the specification and the claims, to be compared
with the definitions embedded from the source. -/

/-- Canonical query string as the specification words it: exclude the given
signature-carrier fields, sort the remaining entries by key, join the
`key=value` pairs with the separator. -/
def specCanonicalQuery (sep : String) (excluded : List String)
    (params : List (String × String)) : String :=
  joinSep sep
    ((List.insertionSort keyLe (params.filter (fun kv => !(excluded.contains kv.1)))).map
      (fun kv => kv.1 ++ "=" ++ kv.2))

/-- The claim's domain pattern, on character lists: an alphanumeric-led
alphanumeric/hyphen label followed by the fixed `.myshopify.com` suffix. -/
def SpecLabelDomain (cs : List Char) : Prop :=
  ∃ c pre, cs = c :: (pre ++ Auth.shopSuffixChars) ∧
    Auth.isAlnumAscii c = true ∧ pre.all Auth.isLabelChar = true

/-- The claim's domain pattern on strings. -/
def specValidShop (s : String) : Prop := SpecLabelDomain s.toList

/-- The domain pattern as the code actually accepts it: the pattern itself,
or the pattern followed by one trailing newline (Python's `$`). -/
def specValidShopLoose (s : String) : Prop :=
  SpecLabelDomain s.toList ∨
    ∃ l, s.toList = l ++ ['\n'] ∧ SpecLabelDomain l

/-- A concrete stand-in digest used to instantiate the digest oracle in
witnesses: injective on messages for a fixed secret, as a real keyed hash is
collision-free in practice. -/
def modelDigest (secret message : String) : String := secret ++ "|" ++ message

/-! ## Concrete fixtures shared by witnesses -/

/-- A concrete environment for witnesses. -/
def env0 : Env :=
  { SHOPIFY_API_KEY := "key", SHOPIFY_API_SECRET := "sek",
    PARAMETER_STORE_BASE := "/shopify/clients", FRONTEND_URL := "https://front.example" }

/-- A concrete token-exchange oracle for witnesses: always succeeds. -/
def exch0 : String → String → Except String (List (String × String)) :=
  fun _ _ => Except.ok [("access_token", "tok"), ("scope", "read_products")]

/-- A concrete upstream HTTP oracle for witnesses: always 200 with an empty
JSON object. -/
def http0 : Proxy.UpstreamCall → Proxy.HttpResult :=
  fun _ => { ok := true, text := "", jsonData := some (Jv.obj []) }


/-- A three-key store for tenant `t.myshopify.com`. -/
def storeT : Store :=
  [("/shopify/clients/t.myshopify.com/access-token", "tok"),
   ("/shopify/clients/t.myshopify.com/scopes", "read_products"),
   ("/shopify/clients/t.myshopify.com/installed-at", "ts")]

/-- A three-key store for tenant `tenant-a.myshopify.com`. -/
def storeA : Store :=
  [("/shopify/clients/tenant-a.myshopify.com/access-token", "tok"),
   ("/shopify/clients/tenant-a.myshopify.com/scopes", "read_products"),
   ("/shopify/clients/tenant-a.myshopify.com/installed-at", "ts")]

/-- A webhook JSON body naming `tenant-b.myshopify.com`. -/
def bodyB : String := "\x7b\"shop_domain\": \"tenant-b.myshopify.com\"\x7d"

/-- A parse oracle consistent with `json.loads` on `bodyB`. -/
def parseB : String → Option Jv :=
  fun s => if s == bodyB then
    some (Jv.obj [("shop_domain", Jv.str "tenant-b.myshopify.com")]) else none

/-- A `shop/redact` webhook whose header names tenant-a but whose payload
names tenant-b, correctly signed under the model digest. -/
def evB : Gdpr.WebhookEvent :=
  { headers := [("X-Shopify-Topic", "shop/redact"),
      ("X-Shopify-Hmac-Sha256", modelDigest "sek" bodyB),
      ("X-Shopify-Shop-Domain", "tenant-a.myshopify.com")],
    body := bodyB }

/-- A webhook JSON body naming `t.myshopify.com`. -/
def bodyT : String := "\x7b\"shop_domain\": \"t.myshopify.com\"\x7d"

/-- A parse oracle consistent with `json.loads` on `bodyT`. -/
def parseT : String → Option Jv :=
  fun s => if s == bodyT then
    some (Jv.obj [("shop_domain", Jv.str "t.myshopify.com")]) else none

/-- A well-signed `shop/redact` webhook whose header and payload agree on
`t.myshopify.com`. -/
def evT : Gdpr.WebhookEvent :=
  { headers := [("X-Shopify-Topic", "shop/redact"),
      ("X-Shopify-Hmac-Sha256", modelDigest "sek" bodyT),
      ("X-Shopify-Shop-Domain", "t.myshopify.com")],
    body := bodyT }

/-- A well-signed webhook with an unknown topic and a body that is not valid
JSON (`json.loads("\x7b")` raises). -/
def evU : Gdpr.WebhookEvent :=
  { headers := [("X-Shopify-Topic", "foo/bar"),
      ("X-Shopify-Hmac-Sha256", modelDigest "sek" "\x7b")],
    body := "\x7b" }

/-- A well-signed webhook with an unknown topic and an empty body. -/
def evF : Gdpr.WebhookEvent :=
  { headers := [("X-Shopify-Topic", "foo/bar"),
      ("X-Shopify-Hmac-Sha256", modelDigest "sek" "")],
    body := "" }

/-- An OAuth-initiation event whose shop carries a trailing newline. -/
def evN : Auth.AuthEvent :=
  { queryStringParameters := some [("shop", "test.myshopify.com\n")],
    domainName := "api.example.com", stage := "prod" }

/-- An OAuth-initiation event with a well-formed shop domain. -/
def evV : Auth.AuthEvent :=
  { queryStringParameters := some [("shop", "teststore.myshopify.com")],
    domainName := "api.example.com", stage := "prod" }

/-- Sequential removal of a list of parameter names from the store, the
effect of `delete_shop_data`'s deletion loop on the store. -/
def removeKeys (keys : List String) (store : Store) : Store :=
  keys.foldl (fun s k => s.filter (fun kv => kv.1 != k)) store

/-! ## Order lemmas for the canonicalization proofs -/

theorem charListLt_irrefl : ∀ as, charListLt as as = false
  | [] => rfl
  | a :: as => by
    simp [charListLt, charListLt_irrefl as, lt_self_iff_false]

theorem charListLt_asymm : ∀ as bs, charListLt as bs = true →
    charListLt bs as = true → False := by
  intro as
  induction as with
  | nil =>
    intro bs h1 h2
    cases bs with
    | nil => simp [charListLt] at h1
    | cons b bs => simp [charListLt] at h2
  | cons a as ih =>
    intro bs h1 h2
    cases bs with
    | nil => simp [charListLt] at h1
    | cons b bs =>
      simp only [charListLt, Bool.or_eq_true, Bool.and_eq_true, decide_eq_true_eq,
        beq_iff_eq] at h1 h2
      rcases h1 with h1 | ⟨rfl, h1⟩
      · rcases h2 with h2 | ⟨he2, h2⟩
        · exact lt_asymm h1 h2
        · exact lt_irrefl a (he2 ▸ h1)
      · rcases h2 with h2 | ⟨he2, h2⟩
        · exact lt_irrefl a h2
        · exact ih bs h1 h2

theorem charListLt_total : ∀ as bs,
    charListLt as bs = true ∨ as = bs ∨ charListLt bs as = true := by
  intro as
  induction as with
  | nil =>
    intro bs
    cases bs with
    | nil => exact Or.inr (Or.inl rfl)
    | cons b bs => exact Or.inl rfl
  | cons a as ih =>
    intro bs
    cases bs with
    | nil => exact Or.inr (Or.inr rfl)
    | cons b bs =>
      rcases lt_trichotomy a b with h | h | h
      · left
        simp [charListLt, h]
      · subst h
        rcases ih bs with h1 | h1 | h1
        · left
          simp [charListLt, h1]
        · exact Or.inr (Or.inl (by rw [h1]))
        · right; right
          simp [charListLt, h1]
      · right; right
        simp [charListLt, h]

theorem charListLt_trans : ∀ as bs cs, charListLt as bs = true →
    charListLt bs cs = true → charListLt as cs = true := by
  intro as
  induction as with
  | nil =>
    intro bs cs h1 h2
    cases bs with
    | nil => simp [charListLt] at h1
    | cons b bs =>
      cases cs with
      | nil => simp [charListLt] at h2
      | cons c cs => rfl
  | cons a as ih =>
    intro bs cs h1 h2
    cases bs with
    | nil => simp [charListLt] at h1
    | cons b bs =>
      cases cs with
      | nil => simp [charListLt] at h2
      | cons c cs =>
        simp only [charListLt, Bool.or_eq_true, Bool.and_eq_true, decide_eq_true_eq,
          beq_iff_eq] at h1 h2 ⊢
        rcases h1 with h1 | ⟨rfl, h1⟩
        · rcases h2 with h2 | ⟨rfl, h2⟩
          · exact Or.inl (lt_trans h1 h2)
          · exact Or.inl h1
        · rcases h2 with h2 | ⟨rfl, h2⟩
          · exact Or.inl h2
          · exact Or.inr ⟨rfl, ih bs cs h1 h2⟩

theorem charListLt_neg_trans : ∀ as bs cs, charListLt bs as = false →
    charListLt cs bs = false → charListLt cs as = false := by
  intro as bs cs h1 h2
  cases h : charListLt cs as with
  | false => rfl
  | true =>
    exfalso
    rcases charListLt_total as bs with hab | hab | hab
    · have h3 := charListLt_trans cs as bs h hab
      rw [h3] at h2
      exact Bool.noConfusion h2
    · subst hab
      rw [h] at h2
      exact Bool.noConfusion h2
    · rw [hab] at h1
      exact Bool.noConfusion h1

theorem charListLt_asymm_false {as bs : List Char} (h : charListLt as bs = true) :
    charListLt bs as = false := by
  cases h3 : charListLt bs as with
  | false => rfl
  | true => exact (charListLt_asymm as bs h h3).elim

instance : IsTotal (String × String) itemLe := by
  constructor
  intro a b
  rcases charListLt_total a.1.toList b.1.toList with h | h | h
  · refine Or.inl ?_
    unfold itemLe itemLeB pyStrLt
    rw [h]
    rfl
  · have hk : a.1 = b.1 := String.toList_inj.mp h
    have hbeq : (a.1 == b.1) = true := beq_iff_eq.mpr hk
    have hbeq2 : (b.1 == a.1) = true := beq_iff_eq.mpr hk.symm
    have hni : charListLt a.1.toList b.1.toList = false := by
      rw [h]
      exact charListLt_irrefl _
    have hni2 : charListLt b.1.toList a.1.toList = false := by
      rw [h]
      exact charListLt_irrefl _
    rcases charListLt_total a.2.toList b.2.toList with h2 | h2 | h2
    · refine Or.inl ?_
      unfold itemLe itemLeB pyStrLt pyStrLe pyStrLt
      rw [hni, hbeq, charListLt_asymm_false h2]
      rfl
    · refine Or.inl ?_
      have hf : charListLt b.2.toList a.2.toList = false := by
        rw [h2]
        exact charListLt_irrefl _
      unfold itemLe itemLeB pyStrLt pyStrLe pyStrLt
      rw [hni, hbeq, hf]
      rfl
    · refine Or.inr ?_
      unfold itemLe itemLeB pyStrLt pyStrLe pyStrLt
      rw [hni2, hbeq2, charListLt_asymm_false h2]
      rfl
  · refine Or.inr ?_
    unfold itemLe itemLeB pyStrLt
    rw [h]
    rfl

instance : IsTrans (String × String) itemLe := by
  constructor
  intro a b c h1 h2
  unfold itemLe itemLeB pyStrLt pyStrLe pyStrLt at h1 h2 ⊢
  simp only [Bool.or_eq_true, Bool.and_eq_true, beq_iff_eq, Bool.not_eq_true'] at h1 h2 ⊢
  rcases h1 with h1 | ⟨hk1, h1⟩
  · rcases h2 with h2 | ⟨hk2, h2⟩
    · exact Or.inl (charListLt_trans _ _ _ h1 h2)
    · refine Or.inl ?_
      have : b.1.toList = c.1.toList := by rw [hk2]
      exact this ▸ h1
  · rcases h2 with h2 | ⟨hk2, h2⟩
    · refine Or.inl ?_
      have : a.1.toList = b.1.toList := by rw [hk1]
      exact this ▸ h2
    · exact Or.inr ⟨hk1.trans hk2, charListLt_neg_trans _ _ _ h1 h2⟩

instance : IsTotal (String × String) keyLe := by
  constructor
  intro a b
  rcases charListLt_total a.1.toList b.1.toList with h | h | h
  · refine Or.inl ?_
    unfold keyLe keyLeB pyStrLe pyStrLt
    rw [charListLt_asymm_false h]
    rfl
  · refine Or.inl ?_
    have hf : charListLt b.1.toList a.1.toList = false := by
      rw [h]
      exact charListLt_irrefl _
    unfold keyLe keyLeB pyStrLe pyStrLt
    rw [hf]
    rfl
  · refine Or.inr ?_
    unfold keyLe keyLeB pyStrLe pyStrLt
    rw [charListLt_asymm_false h]
    rfl

instance : IsTrans (String × String) keyLe := by
  constructor
  intro a b c h1 h2
  unfold keyLe keyLeB pyStrLe pyStrLt at h1 h2 ⊢
  simp only [Bool.not_eq_true'] at h1 h2 ⊢
  exact charListLt_neg_trans _ _ _ h1 h2

instance : IsAntisymm (String × String) keyLt := by
  constructor
  intro a b h1 h2
  exact (charListLt_asymm _ _ h1 h2).elim

theorem itemLe_ne_keyLt {a b : String × String} (h : itemLe a b) (hne : a.1 ≠ b.1) :
    keyLt a b := by
  unfold itemLe itemLeB at h
  simp only [Bool.or_eq_true, Bool.and_eq_true, beq_iff_eq] at h
  rcases h with h | ⟨hk, _⟩
  · exact h
  · exact absurd hk hne

theorem keyLe_ne_keyLt {a b : String × String} (h : keyLe a b) (hne : a.1 ≠ b.1) :
    keyLt a b := by
  unfold keyLe keyLeB pyStrLe pyStrLt at h
  simp only [Bool.not_eq_true'] at h
  rcases charListLt_total a.1.toList b.1.toList with h1 | h1 | h1
  · exact h1
  · exact absurd (String.toList_inj.mp h1) hne
  · rw [h1] at h
    exact Bool.noConfusion h

/-- With pairwise-distinct keys, sorting by the Python tuple order and
sorting by key alone produce the same list: both are permutations of the
input strictly sorted by key, and such a list is unique. -/
theorem insertionSort_item_eq_key (l : List (String × String))
    (h : (l.map Prod.fst).Nodup) :
    List.insertionSort itemLe l = List.insertionSort keyLe l := by
  have p1 := List.perm_insertionSort itemLe l
  have p2 := List.perm_insertionSort keyLe l
  have s1 : (List.insertionSort itemLe l).Sorted itemLe :=
    List.sorted_insertionSort itemLe l
  have s2 : (List.insertionSort keyLe l).Sorted keyLe :=
    List.sorted_insertionSort keyLe l
  have n1 : ((List.insertionSort itemLe l).map Prod.fst).Nodup :=
    ((p1.map Prod.fst).nodup_iff).mpr h
  have n2 : ((List.insertionSort keyLe l).map Prod.fst).Nodup :=
    ((p2.map Prod.fst).nodup_iff).mpr h
  have ne1 : (List.insertionSort itemLe l).Pairwise (fun a b => a.1 ≠ b.1) := by
    rw [List.Nodup, List.pairwise_map] at n1
    exact n1
  have ne2 : (List.insertionSort keyLe l).Pairwise (fun a b => a.1 ≠ b.1) := by
    rw [List.Nodup, List.pairwise_map] at n2
    exact n2
  have st1 : (List.insertionSort itemLe l).Pairwise keyLt :=
    (s1.and ne1).imp (fun hab => itemLe_ne_keyLt hab.1 hab.2)
  have st2 : (List.insertionSort keyLe l).Pairwise keyLt :=
    (s2.and ne2).imp (fun hab => keyLe_ne_keyLt hab.1 hab.2)
  exact List.eq_of_perm_of_sorted (p1.trans p2.symm) st1 st2

/-! ## C1 — query-parameter signature canonicalization -/

theorem filter_not_carrier_both (params : List (String × String)) :
    params.filter (fun kv => !(kv.1 == "hmac" || kv.1 == "signature")) =
      params.filter (fun kv => !((["hmac", "signature"] : List String).contains kv.1)) := by
  apply List.filter_congr
  intro a _
  cases h1 : a.1 == "hmac" <;> cases h2 : a.1 == "signature" <;>
    simp [List.contains, List.elem, h1, h2]

theorem filter_not_carrier_sig (params : List (String × String)) :
    params.filter (fun kv => !(kv.1 == "signature")) =
      params.filter (fun kv => !((["signature"] : List String).contains kv.1)) := by
  apply List.filter_congr
  intro a _
  cases h2 : a.1 == "signature" <;> simp [List.contains, List.elem, h2]

/-- C1, corrected: as stated the claim is false, because the storefront-proxy
verifier (`proxy.py verify_proxy_signature`) excludes only `signature` and
leaves an `hmac` parameter inside the canonical string.  Concretely, for the
parameter map `{hmac: x}` the code verifies against the digest of `hmac=x`,
while the claim's algorithm (excluding both carriers) digests the empty
string — and the two digests differ. -/
theorem c1_counterexample :
    Proxy.verify_proxy_signature modelDigest "sek" [("hmac", "x")]
      (modelDigest "sek" ("hmac=x")) = true
    ∧ specCanonicalQuery ("") ["hmac", "signature"] [("hmac", "x")] = ""
    ∧ modelDigest "sek" "" ≠ modelDigest "sek" ("hmac=x") := by
  refine ⟨by decide, rfl, by decide⟩

/-- C1 (amended): for any digest oracle, secret, and parameter map with
distinct keys, each verifier accepts exactly the digest of the canonical
string the specification describes — sorted by key and joined as
`key=value` pairs — with the call-site differences: the OAuth-callback
verifier excludes both `hmac` and `signature` and joins with `&`, while the
storefront-proxy verifier excludes only `signature` and joins with the
empty separator. -/
theorem c1_canonicalization (hexDigest : String → String → String)
    (secret : String) (params : List (String × String)) (hm sig : String)
    (hnd : (params.map Prod.fst).Nodup) :
    (Callback.verify_hmac hexDigest secret params hm = true ↔
      hexDigest secret (specCanonicalQuery ("&") ["hmac", "signature"] params) = hm)
    ∧ (Proxy.verify_proxy_signature hexDigest secret params sig = true ↔
      hexDigest secret (specCanonicalQuery ("") ["signature"] params) = sig) := by
  constructor
  · unfold Callback.verify_hmac specCanonicalQuery
    dsimp only
    rw [filter_not_carrier_both]
    rw [insertionSort_item_eq_key _
      (hnd.sublist ((List.filter_sublist params).map Prod.fst))]
    exact beq_iff_eq
  · unfold Proxy.verify_proxy_signature specCanonicalQuery
    dsimp only
    rw [filter_not_carrier_sig]
    rw [insertionSort_item_eq_key _
      (hnd.sublist ((List.filter_sublist params).map Prod.fst))]
    exact beq_iff_eq

/-- Witness for `c1_canonicalization` at a concrete parameter map. -/
theorem c1_canonicalization_witness :
    ((([("b", "2"), ("hmac", "x"), ("a", "1")] : List (String × String)).map Prod.fst).Nodup)
    ∧ ((Callback.verify_hmac modelDigest "sek" [("b", "2"), ("hmac", "x"), ("a", "1")] "h" = true ↔
        modelDigest "sek" (specCanonicalQuery ("&") ["hmac", "signature"]
          [("b", "2"), ("hmac", "x"), ("a", "1")]) = "h")
      ∧ (Proxy.verify_proxy_signature modelDigest "sek" [("b", "2"), ("hmac", "x"), ("a", "1")] "g" = true ↔
        modelDigest "sek" (specCanonicalQuery ("") ["signature"]
          [("b", "2"), ("hmac", "x"), ("a", "1")]) = "g")) :=
  ⟨by decide, c1_canonicalization modelDigest "sek" [("b", "2"), ("hmac", "x"), ("a", "1")]
    "h" "g" (by decide)⟩

/-! ## C4 — the echoed OAuth state is never verified -/

/-- C4 (confirmed): the OAuth callback handler never reads the headers, so
two callback events identical except in their headers (in particular the
cookie carrying the state token) produce the same result: the echoed state
is never compared against the client-held cookie. -/
theorem c4_state_never_checked (env : Env) (hexDigest : String → String → String)
    (exchange : String → String → Except String (List (String × String)))
    (now : String) (store : Store) (e1 e2 : Callback.CallbackEvent)
    (hq : e1.queryStringParameters = e2.queryStringParameters) :
    Callback.handler env hexDigest exchange now store e1 =
      Callback.handler env hexDigest exchange now store e2 := by
  unfold Callback.handler
  rw [hq]

/-- Witness for `c4_state_never_checked`: two events that differ only in the
state cookie. -/
theorem c4_state_never_checked_witness :
    (({ queryStringParameters := some [("code", "c"), ("hmac", "h"), ("shop", "s1.myshopify.com")],
        headers := [("Cookie", "shopify_oauth_state=aaa")] } : Callback.CallbackEvent).queryStringParameters =
      ({ queryStringParameters := some [("code", "c"), ("hmac", "h"), ("shop", "s1.myshopify.com")],
         headers := [("Cookie", "shopify_oauth_state=bbb")] } : Callback.CallbackEvent).queryStringParameters)
    ∧ Callback.handler env0 modelDigest exch0 "2026-01-01T00:00:00" []
        { queryStringParameters := some [("code", "c"), ("hmac", "h"), ("shop", "s1.myshopify.com")],
          headers := [("Cookie", "shopify_oauth_state=aaa")] } =
      Callback.handler env0 modelDigest exch0 "2026-01-01T00:00:00" []
        { queryStringParameters := some [("code", "c"), ("hmac", "h"), ("shop", "s1.myshopify.com")],
          headers := [("Cookie", "shopify_oauth_state=bbb")] } :=
  ⟨rfl, c4_state_never_checked env0 modelDigest exch0 "2026-01-01T00:00:00" [] _ _ rfl⟩

/-! ## C3 — no upstream call without a stored token -/

/-- C3 (confirmed): a proxy relay request that passes parameter and signature
validation but whose tenant has no stored access token yields a 500 response
and issues no upstream call at all: the token lookup fails strictly before
any request to the platform API. -/
theorem c3_no_upstream_without_token (env : Env)
    (hexDigest : String → String → String) (http : Proxy.UpstreamCall → Proxy.HttpResult)
    (parseJson : String → Option Jv) (store : Store) (e : Proxy.ProxyEvent)
    (shop sig : String)
    (hshop : dictGet (e.queryStringParameters.getD []) ("shop") = some shop)
    (hsig : dictGet (e.queryStringParameters.getD []) ("signature") = some sig)
    (hs : shop ≠ "") (hg : sig ≠ "")
    (hver : Proxy.verify_proxy_signature hexDigest env.SHOPIFY_API_SECRET
      (e.queryStringParameters.getD []) sig = true)
    (hmiss : storeGet store (Proxy.tokenParamName env shop) = none) :
    (Proxy.handler env hexDigest http parseJson store e).1.statusCode = 500
    ∧ (Proxy.handler env hexDigest http parseJson store e).2 = [] := by
  have h1 : (shop == "") = false := beq_eq_false_iff_ne.mpr hs
  have h2 : (sig == "") = false := beq_eq_false_iff_ne.mpr hg
  simp only [Proxy.handler, Proxy.get_access_token, hshop, hsig, h1, h2, hver, hmiss,
    Bool.or_self, Bool.not_true, if_false]
  exact ⟨rfl, rfl⟩

/-- Witness for `c3_no_upstream_without_token`: a well-signed request for a
shop with no stored token. -/
theorem c3_no_upstream_without_token_witness :
    (dictGet ((some [("shop", "w.myshopify.com"),
        ("signature", modelDigest "sek" ("shop=w.myshopify.com"))] : Option (List (String × String))).getD [])
        ("shop") = some "w.myshopify.com")
    ∧ Proxy.verify_proxy_signature modelDigest "sek"
        ((some [("shop", "w.myshopify.com"),
          ("signature", modelDigest "sek" ("shop=w.myshopify.com"))] : Option (List (String × String))).getD [])
        (modelDigest "sek" ("shop=w.myshopify.com")) = true
    ∧ (Proxy.handler env0 modelDigest http0 (fun _ => none) []
        { queryStringParameters := some [("shop", "w.myshopify.com"),
            ("signature", modelDigest "sek" ("shop=w.myshopify.com"))],
          body := none }).1.statusCode = 500
    ∧ (Proxy.handler env0 modelDigest http0 (fun _ => none) []
        { queryStringParameters := some [("shop", "w.myshopify.com"),
            ("signature", modelDigest "sek" ("shop=w.myshopify.com"))],
          body := none }).2 = [] := by
  refine ⟨by decide, by decide, ?_⟩
  exact c3_no_upstream_without_token env0 modelDigest http0 (fun _ => none) []
    { queryStringParameters := some [("shop", "w.myshopify.com"),
        ("signature", modelDigest "sek" ("shop=w.myshopify.com"))],
      body := none }
    "w.myshopify.com" (modelDigest "sek" ("shop=w.myshopify.com"))
    (by decide) (by decide) (by decide) (by decide) (by decide) (by decide)

/-! ## C10 — only endpoint/method influence the upstream request; no body -/

theorem call_shopify_api_fst (http : Proxy.UpstreamCall → Proxy.HttpResult)
    (shop access_token : String) (endpoint method : Jv) (body : Option Jv) :
    (Proxy.call_shopify_api http shop access_token endpoint method body).1.jsonBody = body := by
  unfold Proxy.call_shopify_api
  dsimp only
  split
  · rfl
  · split <;> rfl

theorem callStage_jsonBody_none (http : Proxy.UpstreamCall → Proxy.HttpResult)
    (shop access_token : String) (endpointE methodE : Except String Jv) :
    ∀ c ∈ (Proxy.callStage http shop access_token endpointE methodE).2,
      c.jsonBody = none := by
  intro c hc
  unfold Proxy.callStage at hc
  cases endpointE with
  | error m => simp at hc
  | ok endpoint =>
    cases methodE with
    | error m => simp at hc
    | ok method =>
      dsimp only at hc
      split at hc <;>
      · rename_i heq
        rw [List.mem_singleton] at hc
        subst hc
        have h := congrArg (fun p => p.1) heq
        dsimp only at h
        rw [← h]
        exact call_shopify_api_fst http shop access_token endpoint method none

/-- Every upstream call the proxy handler issues carries no request body. -/
theorem proxy_trace_jsonBody_none (env : Env)
    (hexDigest : String → String → String) (http : Proxy.UpstreamCall → Proxy.HttpResult)
    (parseJson : String → Option Jv) (store : Store) (e : Proxy.ProxyEvent) :
    ∀ c ∈ (Proxy.handler env hexDigest http parseJson store e).2,
      c.jsonBody = none := by
  intro c hc
  unfold Proxy.handler at hc
  dsimp only at hc
  split at hc
  · split at hc
    · simp at hc
    · split at hc
      · simp at hc
      · split at hc
        · simp at hc
        · split at hc
          · simp at hc
          · exact callStage_jsonBody_none _ _ _ _ _ c hc
  · simp at hc

/-- C10 (confirmed): once a proxy relay request reaches the body-handling
stage, the only parts of the inbound body that influence the upstream
request are its `endpoint` and `method` fields (with their defaults): two
events with the same query parameters whose parsed bodies agree on those two
lookups produce the same upstream-call trace; and every upstream call issued
is sent without a request body. -/
theorem c10_body_influence (env : Env)
    (hexDigest : String → String → String) (http : Proxy.UpstreamCall → Proxy.HttpResult)
    (parseJson : String → Option Jv) (store : Store) (e1 e2 : Proxy.ProxyEvent)
    (p1 p2 : Jv)
    (hq : e1.queryStringParameters = e2.queryStringParameters)
    (h1 : Proxy.requestBodyOf parseJson e1.body = some p1)
    (h2 : Proxy.requestBodyOf parseJson e2.body = some p2)
    (hend : jvGetD p1 ("endpoint") (Jv.str "products.json") =
      jvGetD p2 ("endpoint") (Jv.str "products.json"))
    (hmeth : jvGetD p1 ("method") (Jv.str "GET") = jvGetD p2 ("method") (Jv.str "GET")) :
    (Proxy.handler env hexDigest http parseJson store e1).2 =
      (Proxy.handler env hexDigest http parseJson store e2).2
    ∧ ∀ c ∈ (Proxy.handler env hexDigest http parseJson store e1).2,
        c.jsonBody = none := by
  refine ⟨?_, proxy_trace_jsonBody_none env hexDigest http parseJson store e1⟩
  unfold Proxy.handler
  rw [hq, h1, h2]
  dsimp only
  rw [hend, hmeth]

/-- Witness for `c10_body_influence`: an absent body and an explicit body
with extra fields, agreeing on `endpoint`/`method` after defaulting. -/
theorem c10_body_influence_witness :
    (({ queryStringParameters := some [("shop", "w.myshopify.com"),
          ("signature", modelDigest "sek" ("shop=w.myshopify.com"))],
        body := none } : Proxy.ProxyEvent).queryStringParameters =
      ({ queryStringParameters := some [("shop", "w.myshopify.com"),
           ("signature", modelDigest "sek" ("shop=w.myshopify.com"))],
         body := some "irrelevant" } : Proxy.ProxyEvent).queryStringParameters)
    ∧ Proxy.requestBodyOf
        (fun s => if s == "irrelevant" then some (Jv.obj [("other", Jv.str "field")]) else none)
        (some "irrelevant") = some (Jv.obj [("other", Jv.str "field")])
    ∧ ((Proxy.handler env0 modelDigest http0
          (fun s => if s == "irrelevant" then some (Jv.obj [("other", Jv.str "field")]) else none)
          [(Proxy.tokenParamName env0 "w.myshopify.com", "tok")]
          { queryStringParameters := some [("shop", "w.myshopify.com"),
              ("signature", modelDigest "sek" ("shop=w.myshopify.com"))],
            body := none }).2 =
        (Proxy.handler env0 modelDigest http0
          (fun s => if s == "irrelevant" then some (Jv.obj [("other", Jv.str "field")]) else none)
          [(Proxy.tokenParamName env0 "w.myshopify.com", "tok")]
          { queryStringParameters := some [("shop", "w.myshopify.com"),
              ("signature", modelDigest "sek" ("shop=w.myshopify.com"))],
            body := some "irrelevant" }).2
      ∧ ∀ c ∈ (Proxy.handler env0 modelDigest http0
          (fun s => if s == "irrelevant" then some (Jv.obj [("other", Jv.str "field")]) else none)
          [(Proxy.tokenParamName env0 "w.myshopify.com", "tok")]
          { queryStringParameters := some [("shop", "w.myshopify.com"),
              ("signature", modelDigest "sek" ("shop=w.myshopify.com"))],
            body := none }).2, c.jsonBody = none) :=
  ⟨rfl, rfl,
    c10_body_influence env0 modelDigest http0
      (fun s => if s == "irrelevant" then some (Jv.obj [("other", Jv.str "field")]) else none)
      [(Proxy.tokenParamName env0 "w.myshopify.com", "tok")]
      { queryStringParameters := some [("shop", "w.myshopify.com"),
          ("signature", modelDigest "sek" ("shop=w.myshopify.com"))],
        body := none }
      { queryStringParameters := some [("shop", "w.myshopify.com"),
          ("signature", modelDigest "sek" ("shop=w.myshopify.com"))],
        body := some "irrelevant" }
      (Jv.obj []) (Jv.obj [("other", Jv.str "field")])
      rfl rfl rfl rfl rfl⟩

/-! ## delete_shop_data: loop lemmas, C5 and C6 -/

theorem contains_cons_eq (x k : String) (ks : List String) :
    (k :: ks).contains x = ((x == k) || ks.contains x) := by
  cases h : x == k <;> simp [List.contains, List.elem, h]

theorem removeKeys_eq_filter : ∀ (keys : List String) (store : Store),
    removeKeys keys store = store.filter (fun kv => !(keys.contains kv.1)) := by
  intro keys
  induction keys with
  | nil =>
    intro store
    simp [removeKeys]
  | cons k ks ih =>
    intro store
    have hstep : removeKeys (k :: ks) store =
        removeKeys ks (store.filter (fun kv => kv.1 != k)) := rfl
    rw [hstep, ih, List.filter_filter]
    apply List.filter_congr
    intro a _
    rw [contains_cons_eq]
    cases h1 : a.1 == k <;> cases h2 : ks.contains a.1 <;> simp [bne, h1, h2]

theorem deleteLoop_ok (fail : String → Option String) :
    ∀ (keys : List String) (store : Store) (acc : List String)
      (st' : Store) (out : List String),
    Gdpr.deleteLoop fail keys store acc = (st', Except.ok out) →
    st' = removeKeys keys store ∧ out = acc.reverse ++ keys := by
  intro keys
  induction keys with
  | nil =>
    intro store acc st' out h
    unfold Gdpr.deleteLoop at h
    cases h
    exact ⟨rfl, by simp⟩
  | cons k ks ih =>
    intro store acc st' out h
    unfold Gdpr.deleteLoop at h
    cases hf : fail k with
    | some msg =>
      rw [hf] at h
      cases h
    | none =>
      rw [hf] at h
      dsimp only at h
      have hrec := ih _ _ _ _ h
      refine ⟨hrec.1, ?_⟩
      rw [hrec.2]
      simp

theorem deleteLoop_split (fail : String → Option String) :
    ∀ (pre : List String) (k : String) (post : List String) (msg : String)
      (store : Store) (acc : List String),
    (∀ j ∈ pre, fail j = none) → fail k = some msg →
    Gdpr.deleteLoop fail (pre ++ k :: post) store acc =
      (removeKeys pre store, Except.error msg) := by
  intro pre
  induction pre with
  | nil =>
    intro k post msg store acc hpre hk
    rw [List.nil_append]
    unfold Gdpr.deleteLoop
    rw [hk]
    rfl
  | cons j pre ih =>
    intro k post msg store acc hpre hk
    have hj : fail j = none := hpre j (List.mem_cons_self j pre)
    show Gdpr.deleteLoop fail (j :: (pre ++ k :: post)) store acc = _
    unfold Gdpr.deleteLoop
    rw [hj]
    dsimp only
    exact ih k post msg _ _ (fun x hx => hpre x (List.mem_cons_of_mem j hx)) hk

/-- C5 (confirmed): if any individual delete during `delete_shop_data`
fails, the overall operation fails with that error — it is not swallowed —
while the deletions performed before the failing key remain in effect and
nothing else is removed (no rollback). -/
theorem c5_partial_failure (env : Env) (fail : String → Option String)
    (now : String) (store : Store) (shop : String)
    (pre : List String) (k : String) (post : List String) (msg : String)
    (hsplit : Gdpr.shopParamKeys env store shop = pre ++ k :: post)
    (hpre : ∀ j ∈ pre, fail j = none) (hk : fail k = some msg) :
    (Gdpr.delete_shop_data env fail now store shop).2 = Except.error msg
    ∧ (Gdpr.delete_shop_data env fail now store shop).1 =
        store.filter (fun kv => !(pre.contains kv.1)) := by
  unfold Gdpr.delete_shop_data
  dsimp only
  rw [hsplit, deleteLoop_split fail pre k post msg store [] hpre hk]
  exact ⟨rfl, removeKeys_eq_filter pre store⟩

/-- Witness for `c5_partial_failure`: three stored keys, the second delete
fails; the first key is gone, the others survive, and the error surfaces. -/
theorem c5_partial_failure_witness :
    (Gdpr.shopParamKeys env0
        [("/shopify/clients/t.myshopify.com/access-token", "tok"),
         ("/shopify/clients/t.myshopify.com/scopes", "read_products"),
         ("/shopify/clients/t.myshopify.com/installed-at", "ts")]
        "t.myshopify.com" =
      ["/shopify/clients/t.myshopify.com/access-token"] ++
        "/shopify/clients/t.myshopify.com/scopes" ::
          ["/shopify/clients/t.myshopify.com/installed-at"])
    ∧ ((Gdpr.delete_shop_data env0
          (fun j => if j == "/shopify/clients/t.myshopify.com/scopes" then some "boom" else none)
          "2026-01-01T00:00:00"
          [("/shopify/clients/t.myshopify.com/access-token", "tok"),
           ("/shopify/clients/t.myshopify.com/scopes", "read_products"),
           ("/shopify/clients/t.myshopify.com/installed-at", "ts")]
          "t.myshopify.com").2 = Except.error "boom"
      ∧ (Gdpr.delete_shop_data env0
          (fun j => if j == "/shopify/clients/t.myshopify.com/scopes" then some "boom" else none)
          "2026-01-01T00:00:00"
          [("/shopify/clients/t.myshopify.com/access-token", "tok"),
           ("/shopify/clients/t.myshopify.com/scopes", "read_products"),
           ("/shopify/clients/t.myshopify.com/installed-at", "ts")]
          "t.myshopify.com").1 =
        ([("/shopify/clients/t.myshopify.com/access-token", "tok"),
          ("/shopify/clients/t.myshopify.com/scopes", "read_products"),
          ("/shopify/clients/t.myshopify.com/installed-at", "ts")] : Store).filter
          (fun kv => !((["/shopify/clients/t.myshopify.com/access-token"] : List String).contains kv.1))) :=
  ⟨by decide,
    c5_partial_failure env0
      (fun j => if j == "/shopify/clients/t.myshopify.com/scopes" then some "boom" else none)
      "2026-01-01T00:00:00"
      [("/shopify/clients/t.myshopify.com/access-token", "tok"),
       ("/shopify/clients/t.myshopify.com/scopes", "read_products"),
       ("/shopify/clients/t.myshopify.com/installed-at", "ts")]
      "t.myshopify.com"
      ["/shopify/clients/t.myshopify.com/access-token"]
      "/shopify/clients/t.myshopify.com/scopes"
      ["/shopify/clients/t.myshopify.com/installed-at"] "boom"
      (by decide) (by decide) (by decide)⟩

theorem shopParamKeys_after_removeKeys (env : Env) (store : Store) (shop : String) :
    Gdpr.shopParamKeys env
      (removeKeys (Gdpr.shopParamKeys env store shop) store) shop = [] := by
  have hfil : (removeKeys (Gdpr.shopParamKeys env store shop) store).filter
      (fun kv => strStarts kv.1 (Gdpr.nsOf env shop)) = [] := by
    rw [removeKeys_eq_filter, List.filter_filter, List.filter_eq_nil_iff]
    intro kv hkv
    cases hp : strStarts kv.1 (Gdpr.nsOf env shop) with
    | false => simp
    | true =>
      have hmem : kv.1 ∈ Gdpr.shopParamKeys env store shop :=
        List.mem_map.mpr ⟨kv, List.mem_filter.mpr ⟨hkv, hp⟩, rfl⟩
      have hcon : (Gdpr.shopParamKeys env store shop).contains kv.1 = true :=
        List.elem_eq_true_of_mem hmem
      rw [hcon]
      simp
  show ((removeKeys (Gdpr.shopParamKeys env store shop) store).filter
      (fun kv => strStarts kv.1 (Gdpr.nsOf env shop))).map (fun kv => kv.1) = []
  rw [hfil]
  rfl

/-- C6 (confirmed): `delete_shop_data` is idempotent — after a successful
run, running it again (under any failure behaviour of the store, and any
timestamp) succeeds on the unchanged store and reports an empty deleted
list, because nothing remains under the tenant's namespace. -/
theorem c6_idempotent (env : Env) (fail fail2 : String → Option String)
    (now now2 : String) (store : Store) (shop : String) (st1 : Store)
    (r : Gdpr.DeleteResult)
    (h : Gdpr.delete_shop_data env fail now store shop = (st1, Except.ok r)) :
    Gdpr.delete_shop_data env fail2 now2 st1 shop =
      (st1, Except.ok ⟨shop, [], now2⟩) := by
  unfold Gdpr.delete_shop_data at h
  dsimp only at h
  rcases hdl : Gdpr.deleteLoop fail (Gdpr.shopParamKeys env store shop) store []
    with ⟨st, res⟩
  rw [hdl] at h
  cases res with
  | error m => simp at h
  | ok out =>
    have hst : st = st1 := congrArg Prod.fst h
    have hkeys := (deleteLoop_ok fail _ _ _ _ _ hdl).1
    have hst1 : st1 = removeKeys (Gdpr.shopParamKeys env store shop) store :=
      hst ▸ hkeys
    unfold Gdpr.delete_shop_data
    dsimp only
    have hk2 : Gdpr.shopParamKeys env st1 shop = [] := by
      rw [hst1]
      exact shopParamKeys_after_removeKeys env store shop
    rw [hk2]
    rfl

/-- Witness for `c6_idempotent`: one stored key, deleted by the first call;
the second call returns an empty deleted list. -/
theorem c6_idempotent_witness :
    (Gdpr.delete_shop_data env0 (fun _ => none) "T1"
        [("/shopify/clients/t.myshopify.com/access-token", "tok")] "t.myshopify.com" =
      ([], Except.ok ⟨"t.myshopify.com",
        ["/shopify/clients/t.myshopify.com/access-token"], "T1"⟩))
    ∧ Gdpr.delete_shop_data env0 (fun _ => none) "T2" [] "t.myshopify.com" =
        ([], Except.ok ⟨"t.myshopify.com", [], "T2"⟩) :=
  ⟨rfl, c6_idempotent env0 (fun _ => none) (fun _ => none) "T1" "T2"
    [("/shopify/clients/t.myshopify.com/access-token", "tok")] "t.myshopify.com"
    [] ⟨"t.myshopify.com", ["/shopify/clients/t.myshopify.com/access-token"], "T1"⟩ rfl⟩

/-! ## shop/redact: success-path lemmas, C2 and C9 -/

theorem deleteLoop_all_ok (fail : String → Option String) :
    ∀ (keys : List String) (store : Store) (acc : List String),
    (∀ k ∈ keys, fail k = none) →
    Gdpr.deleteLoop fail keys store acc =
      (removeKeys keys store, Except.ok (acc.reverse ++ keys)) := by
  intro keys
  induction keys with
  | nil =>
    intro store acc _
    unfold Gdpr.deleteLoop
    simp [removeKeys]
  | cons k ks ih =>
    intro store acc h
    have hk : fail k = none := h k (List.mem_cons_self k ks)
    unfold Gdpr.deleteLoop
    rw [hk]
    dsimp only
    rw [ih _ _ (fun x hx => h x (List.mem_cons_of_mem k hx))]
    have : (k :: acc).reverse ++ ks = acc.reverse ++ k :: ks := by simp
    rw [this]
    rfl

theorem removeKeys_shopParamKeys (env : Env) (store : Store) (shop : String) :
    removeKeys (Gdpr.shopParamKeys env store shop) store =
      store.filter (fun kv => !(strStarts kv.1 (Gdpr.nsOf env shop))) := by
  rw [removeKeys_eq_filter]
  apply List.filter_congr
  intro kv hkv
  cases hp : strStarts kv.1 (Gdpr.nsOf env shop) with
  | true =>
    have hmem : kv.1 ∈ Gdpr.shopParamKeys env store shop :=
      List.mem_map.mpr ⟨kv, List.mem_filter.mpr ⟨hkv, hp⟩, rfl⟩
    have hcon : (Gdpr.shopParamKeys env store shop).contains kv.1 = true :=
      List.elem_eq_true_of_mem hmem
    rw [hcon]
  | false =>
    have hnot : kv.1 ∉ Gdpr.shopParamKeys env store shop := by
      intro hmem
      rcases List.mem_map.mp hmem with ⟨kv', hkv', he⟩
      have h2 := (List.mem_filter.mp hkv').2
      rw [he] at h2
      rw [hp] at h2
      exact Bool.noConfusion h2
    have hcon : (Gdpr.shopParamKeys env store shop).contains kv.1 = false := by
      cases hc : (Gdpr.shopParamKeys env store shop).contains kv.1 with
      | false => rfl
      | true => exact absurd (List.elem_iff.mp hc) hnot
    rw [hcon]

theorem delete_shop_data_ok (env : Env) (fail : String → Option String)
    (now : String) (store : Store) (shop : String)
    (h : ∀ k ∈ Gdpr.shopParamKeys env store shop, fail k = none) :
    Gdpr.delete_shop_data env fail now store shop =
      (store.filter (fun kv => !(strStarts kv.1 (Gdpr.nsOf env shop))),
       Except.ok ⟨shop, Gdpr.shopParamKeys env store shop, now⟩) := by
  unfold Gdpr.delete_shop_data
  dsimp only
  rw [deleteLoop_all_ok fail _ store [] h, removeKeys_shopParamKeys]
  rfl

theorem delete_shop_data_fails (env : Env) (fail : String → Option String)
    (now : String) (store : Store) (shop : String)
    (pre : List String) (k : String) (post : List String) (msg : String)
    (hsplit : Gdpr.shopParamKeys env store shop = pre ++ k :: post)
    (hpre : ∀ j ∈ pre, fail j = none) (hk : fail k = some msg) :
    Gdpr.delete_shop_data env fail now store shop =
      (store.filter (fun kv => !(pre.contains kv.1)), Except.error msg) := by
  unfold Gdpr.delete_shop_data
  dsimp only
  rw [hsplit, deleteLoop_split fail pre k post msg store [] hpre hk,
    removeKeys_eq_filter]


/-- C2, corrected: the tenant whose keys are deleted is NOT taken from the
`x-shopify-shop-domain` header.  In `evB` the header names `tenant-a` —
whose three keys the store holds — while the JSON payload names `tenant-b`:
the handler deletes nothing, leaves the store unchanged, and answers 200
with an empty deleted-parameters list, against the claim's "exactly three
deletions occur and the response enumerates all three". -/
theorem c2_counterexample :
    Gdpr.topicOf evB = "shop/redact"
    ∧ Gdpr.shopDomainOf evB = "tenant-a.myshopify.com"
    ∧ Gdpr.verify_webhook_hmac modelDigest env0.SHOPIFY_API_SECRET evB.body
        (Gdpr.hmacHeaderOf evB) = true
    ∧ Gdpr.shopParamKeys env0 storeA "tenant-a.myshopify.com" =
        ["/shopify/clients/tenant-a.myshopify.com/access-token",
         "/shopify/clients/tenant-a.myshopify.com/scopes",
         "/shopify/clients/tenant-a.myshopify.com/installed-at"]
    ∧ Gdpr.handler env0 modelDigest parseB (fun _ => none) "2026-01-01T00:00:00"
        storeA evB =
      (storeA,
       { statusCode := 200, headers := [("Content-Type", "application/json")],
         body := Jv.obj [("shop_id", Jv.null),
           ("shop_domain", Jv.str "tenant-b.myshopify.com"),
           ("action_taken", Jv.str "data_deleted"),
           ("details", Jv.obj [("shop", Jv.str "tenant-b.myshopify.com"),
             ("deleted_parameters", Jv.arr []),
             ("deleted_at", Jv.str "2026-01-01T00:00:00")]),
           ("message", Jv.str "All shop data has been deleted from our systems.")] }) :=
  ⟨rfl, rfl, rfl, rfl, rfl⟩

/-- C2 (amended): for a `shop/redact` webhook with a valid body-mode
signature and a JSON-object body, the handler deletes exactly the stored
keys under the namespace of the tenant named by the *payload's*
`shop_domain` field (the tenant header is not consulted for deletion): if
every such delete succeeds it answers 200 enumerating the deleted keys and
the deletion timestamp, and if some delete fails it answers 500 with that
error's message, retaining the deletions made before the failure. -/
theorem c2_shop_redact (env : Env) (b64Digest : String → String → String)
    (parseJson : String → Option Jv) (fail : String → Option String)
    (now : String) (store : Store) (e : Gdpr.WebhookEvent)
    (fields : List (String × Jv))
    (htop : Gdpr.topicOf e = "shop/redact")
    (hsig : Gdpr.verify_webhook_hmac b64Digest env.SHOPIFY_API_SECRET e.body
      (Gdpr.hmacHeaderOf e) = true)
    (hbody : Gdpr.parsedBodyOf parseJson e.body = some (Jv.obj fields)) :
    ((∀ kk ∈ Gdpr.shopParamKeys env store (pyStrOfOpt (jvLookup fields ("shop_domain"))),
        fail kk = none) →
      Gdpr.handler env b64Digest parseJson fail now store e =
        (store.filter (fun kv =>
          !(strStarts kv.1 (Gdpr.nsOf env (pyStrOfOpt (jvLookup fields ("shop_domain")))))),
         { statusCode := 200, headers := [("Content-Type", "application/json")],
           body := Jv.obj [("shop_id", optJv (jvLookup fields ("shop_id"))),
             ("shop_domain", optJv (jvLookup fields ("shop_domain"))),
             ("action_taken", Jv.str "data_deleted"),
             ("details", Jv.obj [("shop", Jv.str (pyStrOfOpt (jvLookup fields ("shop_domain")))),
               ("deleted_parameters", Jv.arr
                 ((Gdpr.shopParamKeys env store
                   (pyStrOfOpt (jvLookup fields ("shop_domain")))).map Jv.str)),
               ("deleted_at", Jv.str now)]),
             ("message", Jv.str "All shop data has been deleted from our systems.")] }))
    ∧ (∀ (pre : List String) (k : String) (post : List String) (msg : String),
        Gdpr.shopParamKeys env store (pyStrOfOpt (jvLookup fields ("shop_domain"))) =
          pre ++ k :: post →
        (∀ j ∈ pre, fail j = none) → fail k = some msg →
        Gdpr.handler env b64Digest parseJson fail now store e =
          (store.filter (fun kv => !(pre.contains kv.1)),
           { statusCode := 500, headers := [("Content-Type", "application/json")],
             body := Jv.obj [("error", Jv.str "Failed to delete shop data"),
               ("message", Jv.str msg)] })) := by
  have h1 : ((Gdpr.topicOf e) == "customers/data_request") = false := by
    rw [htop]
    decide
  have h2 : ((Gdpr.topicOf e) == "customers/redact") = false := by
    rw [htop]
    decide
  have h3 : ((Gdpr.topicOf e) == "shop/redact") = true := by
    rw [htop]
    decide
  constructor
  · intro hok
    simp only [Gdpr.handler, hsig, hbody, h1, h2, h3, Bool.not_true, if_false, if_true]
    unfold Gdpr.handle_shop_redact
    dsimp only [jvGet]
    rw [delete_shop_data_ok env fail now store _ hok]
    rfl
  · intro pre k post msg hs hp hk
    simp only [Gdpr.handler, hsig, hbody, h1, h2, h3, Bool.not_true, if_false, if_true]
    unfold Gdpr.handle_shop_redact
    dsimp only [jvGet]
    rw [delete_shop_data_fails env fail now store _ pre k post msg hs hp hk]
    rfl

/-- Witness for `c2_shop_redact`: the payload names the tenant whose three
keys are stored; all three are deleted and enumerated. -/
theorem c2_shop_redact_witness :
    (Gdpr.topicOf evT = "shop/redact"
      ∧ Gdpr.parsedBodyOf parseT evT.body =
        some (Jv.obj [("shop_domain", Jv.str "t.myshopify.com")]))
    ∧ Gdpr.handler env0 modelDigest parseT (fun _ => none) "2026-01-01T00:00:00"
        storeT evT =
      ([],
       { statusCode := 200, headers := [("Content-Type", "application/json")],
         body := Jv.obj [("shop_id", Jv.null),
           ("shop_domain", Jv.str "t.myshopify.com"),
           ("action_taken", Jv.str "data_deleted"),
           ("details", Jv.obj [("shop", Jv.str "t.myshopify.com"),
             ("deleted_parameters", Jv.arr
               [Jv.str "/shopify/clients/t.myshopify.com/access-token",
                Jv.str "/shopify/clients/t.myshopify.com/scopes",
                Jv.str "/shopify/clients/t.myshopify.com/installed-at"]),
             ("deleted_at", Jv.str "2026-01-01T00:00:00")]),
           ("message", Jv.str "All shop data has been deleted from our systems.")] }) := by
  refine ⟨⟨rfl, rfl⟩, ?_⟩
  have h := (c2_shop_redact env0 modelDigest parseT (fun _ => none)
    "2026-01-01T00:00:00" storeT evT
    [("shop_domain", Jv.str "t.myshopify.com")] rfl rfl rfl).1 (fun kk _ => rfl)
  exact h

/-- C9, corrected: a valid signature and an unrecognized topic do not
guarantee a 400 — if the body is not valid JSON, `json.loads` raises first
and the router answers the generic 500.  `evU` carries topic `foo/bar`, a
valid signature over the body `"\x7b"`, and that body is not parseable. -/
theorem c9_counterexample :
    Gdpr.verify_webhook_hmac modelDigest env0.SHOPIFY_API_SECRET evU.body
      (Gdpr.hmacHeaderOf evU) = true
    ∧ Gdpr.topicOf evU = "foo/bar"
    ∧ Gdpr.handler env0 modelDigest (fun _ => none) (fun _ => none)
        "2026-01-01T00:00:00" [] evU = ([], Gdpr.gdpr500)
    ∧ Gdpr.gdpr500.statusCode = 500 :=
  ⟨rfl, rfl, rfl, rfl⟩

/-- C9 (amended): a webhook with a valid body-mode signature, a topic that
is none of the three known ones, and a body that parses as JSON (or is
empty) is answered 400 with the unknown-topic error, not 500. -/
theorem c9_unknown_topic (env : Env) (b64Digest : String → String → String)
    (parseJson : String → Option Jv) (fail : String → Option String)
    (now : String) (store : Store) (e : Gdpr.WebhookEvent) (p : Jv)
    (hsig : Gdpr.verify_webhook_hmac b64Digest env.SHOPIFY_API_SECRET e.body
      (Gdpr.hmacHeaderOf e) = true)
    (ht1 : Gdpr.topicOf e ≠ "customers/data_request")
    (ht2 : Gdpr.topicOf e ≠ "customers/redact")
    (ht3 : Gdpr.topicOf e ≠ "shop/redact")
    (hbody : Gdpr.parsedBodyOf parseJson e.body = some p) :
    Gdpr.handler env b64Digest parseJson fail now store e =
      (store,
       { statusCode := 400, headers := [],
         body := Jv.obj [("error", Jv.str ("Unknown topic: " ++ Gdpr.topicOf e))] }) := by
  have h1 : ((Gdpr.topicOf e) == "customers/data_request") = false :=
    beq_eq_false_iff_ne.mpr ht1
  have h2 : ((Gdpr.topicOf e) == "customers/redact") = false :=
    beq_eq_false_iff_ne.mpr ht2
  have h3 : ((Gdpr.topicOf e) == "shop/redact") = false :=
    beq_eq_false_iff_ne.mpr ht3
  simp only [Gdpr.handler, hsig, hbody, h1, h2, h3, Bool.not_true, if_false]
  rfl

/-- Witness for `c9_unknown_topic`: unknown topic, valid signature, empty
body (parsed as the empty object). -/
theorem c9_unknown_topic_witness :
    Gdpr.verify_webhook_hmac modelDigest env0.SHOPIFY_API_SECRET evF.body
      (Gdpr.hmacHeaderOf evF) = true
    ∧ Gdpr.handler env0 modelDigest (fun _ => none) (fun _ => none)
        "2026-01-01T00:00:00" [] evF =
      ([],
       { statusCode := 400, headers := [],
         body := Jv.obj [("error", Jv.str ("Unknown topic: " ++ Gdpr.topicOf evF))] }) :=
  ⟨rfl, c9_unknown_topic env0 modelDigest (fun _ => none) (fun _ => none)
    "2026-01-01T00:00:00" [] evF (Jv.obj []) rfl (by decide) (by decide) (by decide) rfl⟩

/-! ## C8 — payload-level GraphQL errors fail even on transport success -/

/-- C8 (confirmed): for a GraphQL call whose transport status is a success
(below 400) and whose body parses to a JSON object, `graphql` fails with the
upstream-GraphQL error whenever the body has an `errors` field, and returns
the `data` payload (defaulting to the empty object) exactly when it has
none. -/
theorem c8_graphql_errors (http : ShopifyClient.GqlRequest → ShopifyClient.GqlResult)
    (store : Store) (st : ShopifyClient.ClientState) (query : String)
    (vars : Option Jv) (token : String) (st1 : ShopifyClient.ClientState)
    (fields : List (String × Jv))
    (htok : ShopifyClient.get_access_token store st = Except.ok (token, st1))
    (hstatus : (http (ShopifyClient.gqlRequestOf st1 token query vars)).status < 400)
    (hjson : (http (ShopifyClient.gqlRequestOf st1 token query vars)).jsonData =
      some (Jv.obj fields)) :
    (∀ ev, jvLookup fields ("errors") = some ev →
      ShopifyClient.graphql http store st query vars =
        Except.error ("GraphQL errors: " ++ pyStrOfJv ev))
    ∧ (jvLookup fields ("errors") = none →
      ShopifyClient.graphql http store st query vars =
        Except.ok ((jvLookup fields ("data")).getD (Jv.obj []), st1)) := by
  constructor
  · intro ev hev
    unfold ShopifyClient.graphql
    rw [htok]
    dsimp only
    rw [if_neg (Nat.not_le.mpr hstatus), hjson]
    dsimp only
    rw [hev]
  · intro hev
    unfold ShopifyClient.graphql
    rw [htok]
    dsimp only
    rw [if_neg (Nat.not_le.mpr hstatus), hjson]
    dsimp only
    rw [hev]

/-- Witness for `c8_graphql_errors`: a cached token, a 200 response without
an `errors` field; the `data` payload is returned. -/
theorem c8_graphql_errors_witness :
    (ShopifyClient.get_access_token []
        ⟨"t.myshopify.com", "2024-01", some "tok"⟩ =
      Except.ok ("tok", ⟨"t.myshopify.com", "2024-01", some "tok"⟩))
    ∧ ShopifyClient.graphql
        (fun _ => ⟨200, some (Jv.obj [("data", Jv.obj [("x", Jv.num 1)])])⟩)
        [] ⟨"t.myshopify.com", "2024-01", some "tok"⟩ "query Q" none =
      Except.ok (Jv.obj [("x", Jv.num 1)], ⟨"t.myshopify.com", "2024-01", some "tok"⟩) :=
  ⟨rfl,
    (c8_graphql_errors
      (fun _ => ⟨200, some (Jv.obj [("data", Jv.obj [("x", Jv.num 1)])])⟩)
      [] ⟨"t.myshopify.com", "2024-01", some "tok"⟩ "query Q" none
      "tok" ⟨"t.myshopify.com", "2024-01", some "tok"⟩
      [("data", Jv.obj [("x", Jv.num 1)])]
      rfl (by decide) rfl).2 rfl⟩

/-! ## C7 — the shop-domain pattern and Python's trailing-newline `$` -/

theorem dropWhile_eq_dot_cons_iff (p : Char → Bool) (hp : p '.' = false) :
    ∀ (rest t0 : List Char),
    (rest.dropWhile p = '.' :: t0) ↔
      ∃ pre, pre.all p = true ∧ rest = pre ++ '.' :: t0 := by
  intro rest
  induction rest with
  | nil =>
    intro t0
    constructor
    · intro h
      exact absurd h (by simp)
    · rintro ⟨pre, _, h⟩
      exact absurd h (by simp)
  | cons c rs ih =>
    intro t0
    rw [List.dropWhile_cons]
    cases hc : p c with
    | true =>
      rw [if_pos rfl]
      rw [ih t0]
      constructor
      · rintro ⟨pre, hall, hrs⟩
        refine ⟨c :: pre, ?_, ?_⟩
        · rw [List.all_cons, hc, hall]
          rfl
        · rw [hrs]
          rfl
      · rintro ⟨pre, hall, heq⟩
        cases pre with
        | nil =>
          simp only [List.nil_append, List.cons.injEq] at heq
          rw [heq.1] at hc
          rw [hp] at hc
          exact Bool.noConfusion hc
        | cons d pre =>
          simp only [List.cons_append, List.cons.injEq] at heq
          rw [List.all_cons, Bool.and_eq_true] at hall
          exact ⟨pre, hall.2, heq.2⟩
    | false =>
      rw [if_neg (fun h => Bool.noConfusion h)]
      constructor
      · intro h
        simp only [List.cons.injEq] at h
        exact ⟨[], rfl, by rw [List.nil_append, h.1, h.2]⟩
      · rintro ⟨pre, hall, heq⟩
        cases pre with
        | nil =>
          simpa using heq
        | cons d pre =>
          simp only [List.cons_append, List.cons.injEq] at heq
          rw [List.all_cons, Bool.and_eq_true] at hall
          rw [heq.1] at hc
          rw [hall.1] at hc
          exact Bool.noConfusion hc

theorem shop_regex_core_iff (cs : List Char) :
    Auth.shop_regex_core cs = true ↔
      (SpecLabelDomain cs ∨ ∃ l, cs = l ++ ['\n'] ∧ SpecLabelDomain l) := by
  have hp : Auth.isLabelChar '.' = false := by decide
  cases cs with
  | nil =>
    simp only [Auth.shop_regex_core]
    constructor
    · intro h
      exact Bool.noConfusion h
    · rintro (⟨c, pre, heq, _, _⟩ | ⟨l, heq, _⟩)
      · exact absurd heq (by simp)
      · exact absurd heq (by simp)
  | cons c rest =>
    have hsfx : Auth.shopSuffixChars = '.' :: ("myshopify.com").toList := rfl
    unfold Auth.shop_regex_core
    dsimp only
    rw [Bool.and_eq_true, Bool.or_eq_true, beq_iff_eq, beq_iff_eq, hsfx,
      List.cons_append]
    rw [dropWhile_eq_dot_cons_iff Auth.isLabelChar hp rest,
      dropWhile_eq_dot_cons_iff Auth.isLabelChar hp rest]
    constructor
    · rintro ⟨halnum, ⟨pre, hall, hrs⟩ | ⟨pre, hall, hrs⟩⟩
      · exact Or.inl ⟨c, pre, by rw [hrs, hsfx], halnum, hall⟩
      · refine Or.inr ⟨c :: (pre ++ Auth.shopSuffixChars), ?_, c, pre, rfl, halnum, hall⟩
        rw [hrs, hsfx]
        simp
    · rintro (⟨c', pre, heq, halnum, hall⟩ | ⟨l, heq, c', pre, hleq, halnum, hall⟩)
      · simp only [List.cons.injEq] at heq
        refine ⟨heq.1 ▸ halnum, Or.inl ⟨pre, hall, ?_⟩⟩
        rw [heq.2, hsfx]
      · rw [hleq] at heq
        simp only [List.cons_append, List.cons.injEq] at heq
        refine ⟨heq.1 ▸ halnum, Or.inr ⟨pre, hall, ?_⟩⟩
        rw [heq.2, hsfx]
        simp

theorem shop_regex_match_iff (s : String) :
    Auth.shop_regex_match s = true ↔ specValidShopLoose s := by
  unfold Auth.shop_regex_match specValidShopLoose
  exact shop_regex_core_iff s.toList

theorem specLabelDomain_getLast {l : List Char} (h : SpecLabelDomain l) :
    l.getLast? = some 'm' := by
  rcases h with ⟨c, pre, heq, _, _⟩
  rw [heq]
  have h1 : (c :: (pre ++ Auth.shopSuffixChars)) = (c :: pre) ++ Auth.shopSuffixChars := by
    simp
  rw [h1, List.getLast?_append_of_ne_nil (c :: pre) (by decide)]
  rfl

theorem not_specValidShopLoose_empty : ¬ specValidShopLoose "" := by
  rintro (⟨c, pre, heq, _, _⟩ | ⟨l, heq, _⟩)
  · exact absurd heq (by simp)
  · exact absurd heq (by simp)

/-- C7, corrected: the domain check is `re.match(pattern + '$')` in Python,
and `$` also matches just before one trailing newline, so the string
`"test.myshopify.com\n"` — which does not match the claim's pattern (its
last character is a newline, not part of any label/suffix) — is accepted
with a 302 redirect rather than rejected with 400. -/
theorem c7_counterexample :
    ¬ specValidShop ("test.myshopify.com\n")
    ∧ (Auth.handler env0 "c0ffee" evN).statusCode = 302 := by
  constructor
  · intro h
    have h1 := specLabelDomain_getLast h
    rw [show (("test.myshopify.com\n" : String)).toList.getLast? = some '\n' from rfl] at h1
    exact absurd h1 (by decide)
  · rfl

/-- C7 (amended): OAuth initiation accepts exactly the strings matching the
domain pattern — an alphanumeric-led alphanumeric/hyphen label plus the
fixed `.myshopify.com` suffix — or such a string followed by one trailing
newline (Python's `$`); given a supplied shop parameter, acceptance answers
302 and every other string is rejected with 400. -/
theorem c7_domain_validation (env : Env) (state : String) (e : Auth.AuthEvent)
    (shop : String)
    (hshop : dictGet (e.queryStringParameters.getD []) ("shop") = some shop) :
    (specValidShopLoose shop → (Auth.handler env state e).statusCode = 302)
    ∧ (¬ specValidShopLoose shop → (Auth.handler env state e).statusCode = 400) := by
  unfold Auth.handler
  dsimp only
  rw [hshop]
  dsimp only
  cases he : shop == "" with
  | true =>
    have hsempty : shop = "" := beq_iff_eq.mp he
    constructor
    · intro h
      rw [hsempty] at h
      exact absurd h not_specValidShopLoose_empty
    · intro _
      rfl
  | false =>
    cases hrm : Auth.shop_regex_match shop with
    | true =>
      constructor
      · intro _
        rfl
      · intro hn
        exact absurd ((shop_regex_match_iff shop).mp hrm) hn
    | false =>
      constructor
      · intro h
        have h2 := (shop_regex_match_iff shop).mpr h
        rw [hrm] at h2
        exact Bool.noConfusion h2
      · intro _
        rfl

/-- Witness for `c7_domain_validation`: a well-formed shop domain is
accepted with a 302. -/
theorem c7_domain_validation_witness :
    (dictGet ((some [("shop", "teststore.myshopify.com")] :
        Option (List (String × String))).getD []) ("shop") =
      some "teststore.myshopify.com")
    ∧ specValidShopLoose "teststore.myshopify.com"
    ∧ ((specValidShopLoose "teststore.myshopify.com" →
        (Auth.handler env0 "c0ffee" evV).statusCode = 302)
      ∧ (¬ specValidShopLoose "teststore.myshopify.com" →
        (Auth.handler env0 "c0ffee" evV).statusCode = 400)) :=
  ⟨rfl, Or.inl ⟨'t', ("eststore").toList, by decide, by decide, by decide⟩,
    c7_domain_validation env0 "c0ffee" evV "teststore.myshopify.com" rfl⟩
